import Mathlib

/-!
Shallow embedding of the asteroids-game simulation core (src/src/common.h,
main.cpp, game_logic.cpp, menu_system.cpp, particles.cpp) and proofs of the
specification claims about it.

Modelling conventions:
* C `float` values are embedded as `ℚ`; the float literals of the source
  (0.99f, 0.2f, ...) are the corresponding exact rationals.
* C `int` values are embedded as `Int`.
* The C library functions `sqrt`, and the trigonometric `RotatePoint`
  (rendering.cpp) together with `cosf`/`sinf` used by the particle factories,
  return irrational values in general; they are passed in as an explicit
  oracle `FloatFns`.  Every theorem below holds for every interpretation of
  this oracle.  The collision tests `sqrt(d2) < r` of game_logic.cpp are
  embedded as the equivalent comparison `d2 < r^2` (the radii are positive).
* raylib `GetRandomValue(lo, hi)` and C `rand()` are embedded as integer
  streams (`RNG`); `getRandomValue` always produces a value in `[lo, hi]`,
  mirroring the bounded-random contract of the library call.
* The do-while position-resampling loop of `SpawnAsteroidWave`
  (game_logic.cpp) can in principle run forever; it is embedded with fuel,
  `none` standing for a run that did not leave the loop.
-/

namespace Asteroids

/-! Game constants, from main.cpp. -/

def gameWidth : Int := 800

def gameHeight : Int := 600

def MAX_SCALE : Int := 4

def MAX_LIVES : Int := 4

def BASE_COOLDOWN_DURATION : ℚ := 1

def WAVE_TRANSITION_DURATION : ℚ := 2

/-! Data model, from common.h. -/

inductive GameState where
  | MENU
  | NEW_GAME_CONFIRM
  | HIGH_SCORES
  | WAVE_TRANSITION
  | WAITING_TO_SPAWN
  | PLAYING
  | PAUSED
  | GAME_OVER
deriving DecidableEq

inductive MenuActionType where
  | ACTION_RESUME
  | ACTION_NEW_GAME
  | ACTION_HIGH_SCORES
  | ACTION_SCALE
  | ACTION_EXIT
deriving DecidableEq

structure MenuItem where
  label : String
  action : MenuActionType
  dynamicLabel : Bool
deriving DecidableEq

structure Ship where
  x : ℚ
  y : ℚ
  rotation : ℚ
  velocityX : ℚ
  velocityY : ℚ
deriving DecidableEq

structure Bullet where
  x : ℚ
  y : ℚ
  velocityX : ℚ
  velocityY : ℚ
  active : Bool
deriving DecidableEq

inductive AsteroidSize where
  | SMALL
  | MEDIUM
  | LARGE
deriving DecidableEq

structure Asteroid where
  x : ℚ
  y : ℚ
  velocityX : ℚ
  velocityY : ℚ
  size : AsteroidSize
  rotation : ℚ
  active : Bool
deriving DecidableEq

/-- Raylib RGBA color record; particles carry one. -/
structure Color where
  r : Nat
  g : Nat
  b : Nat
  a : Nat
deriving DecidableEq

def WHITE : Color := ⟨255, 255, 255, 255⟩

def LIGHTGRAY : Color := ⟨200, 200, 200, 255⟩

def SKYBLUE : Color := ⟨102, 191, 255, 255⟩

structure Particle where
  x : ℚ
  y : ℚ
  velocityX : ℚ
  velocityY : ℚ
  life : ℚ
  maxLife : ℚ
  color : Color
  size : ℚ
  active : Bool
deriving DecidableEq

open GameState AsteroidSize MenuActionType

/-- Model of a pseudo-random source: an integer stream plus a cursor.
Used both for raylib `GetRandomValue` and for C `rand()`. -/
structure RNG where
  stream : Nat → Int
  idx : Nat

/-- Raylib `GetRandomValue(lo, hi)`: a bounded random integer in `[lo, hi]`
(inclusive), consuming one stream element. -/
def getRandomValue (lo hi : Int) (r : RNG) : Int × RNG :=
  (lo + r.stream r.idx % (hi - lo + 1), ⟨r.stream, r.idx + 1⟩)

/-- C `RAND_MAX` (glibc). -/
def RAND_MAX : Int := 2147483647

/-- C `(float)rand() / RAND_MAX`: a random rational in `[0, 1]`. -/
def randFloat (r : RNG) : ℚ × RNG :=
  ((r.stream r.idx % (RAND_MAX + 1) : ℚ) / (RAND_MAX : ℚ), ⟨r.stream, r.idx + 1⟩)

/-- C `rand() % n`. -/
def randMod (n : Int) (r : RNG) : Int × RNG :=
  (r.stream r.idx % (RAND_MAX + 1) % n, ⟨r.stream, r.idx + 1⟩)

/-- Oracle for the C float functions whose exact values are irrational:
`sqrt`, `RotatePoint(relX, relY, degrees)` (rendering.cpp, built from
`cos`/`sin`), plus the `cosf`/`sinf`/`PI` combinations used by the particle
factories.  No claim below depends on the values these produce. -/
structure FloatFns where
  sqrtQ : ℚ → ℚ
  rotatePoint : ℚ → ℚ → ℚ → ℚ × ℚ
  cosQ : ℚ → ℚ
  sinQ : ℚ → ℚ
  piQ : ℚ

/-- Two-branch screen wrap used by ship, asteroid and particle physics:
`if (v < 0) v = w; if (v > w) v = 0;` applied in sequence. -/
def wrapCoord (w x : ℚ) : ℚ :=
  let x1 := if x < 0 then w else x
  if x1 > w then 0 else x1

/-! Physics integrator, from common.h (UpdateShipPhysics, UpdateBulletPhysics,
UpdateAsteroidPhysics) and particles.cpp (UpdateParticles). -/

/-- UpdateShipPhysics: drag 0.99, speed clamp at 8 via `sqrt`, integrate,
wrap both axes. -/
def updateShipPhysics (fo : FloatFns) (s : Ship) : Ship :=
  let vx := s.velocityX * (99 / 100)
  let vy := s.velocityY * (99 / 100)
  let speed := fo.sqrtQ (vx * vx + vy * vy)
  let vx2 := if speed > 8 then vx / speed * 8 else vx
  let vy2 := if speed > 8 then vy / speed * 8 else vy
  { s with
    velocityX := vx2
    velocityY := vy2
    x := wrapCoord (gameWidth : ℚ) (s.x + vx2)
    y := wrapCoord (gameHeight : ℚ) (s.y + vy2) }

/-- UpdateBulletPhysics body for one bullet: integrate, deactivate when the
new position leaves the field (bullets do not wrap). -/
def updateBullet (b : Bullet) : Bullet :=
  if b.active = false then b
  else
    let x := b.x + b.velocityX
    let y := b.y + b.velocityY
    let act := !(x < 0 || x > (gameWidth : ℚ) || y < 0 || y > (gameHeight : ℚ))
    { b with x := x, y := y, active := act }

def updateBulletList (bs : List Bullet) : List Bullet :=
  bs.map updateBullet

/-- UpdateAsteroidPhysics body for one asteroid: integrate and wrap; inactive
records are skipped. -/
def updateAsteroid (a : Asteroid) : Asteroid :=
  if a.active = false then a
  else
    { a with
      x := wrapCoord (gameWidth : ℚ) (a.x + a.velocityX)
      y := wrapCoord (gameHeight : ℚ) (a.y + a.velocityY) }

def updateAsteroidList (as : List Asteroid) : List Asteroid :=
  as.map updateAsteroid

/-- UpdateParticles body for one particle: integrate, drag 0.98, decrement
life by the frame time, deactivate at zero, wrap; inactive records skipped. -/
def updateParticle (dt : ℚ) (p : Particle) : Particle :=
  if p.active = false then p
  else
    let x := p.x + p.velocityX
    let y := p.y + p.velocityY
    let vx := p.velocityX * (98 / 100)
    let vy := p.velocityY * (98 / 100)
    let life := p.life - dt
    let act := if life ≤ 0 then false else p.active
    { p with
      x := wrapCoord (gameWidth : ℚ) x
      y := wrapCoord (gameHeight : ℚ) y
      velocityX := vx
      velocityY := vy
      life := life
      active := act }

def updateParticleList (dt : ℚ) (ps : List Particle) : List Particle :=
  ps.map (updateParticle dt)

/-- CleanupParticles: erase/remove_if over the inactive records. -/
def cleanupParticleList (ps : List Particle) : List Particle :=
  ps.filter (fun p => p.active)

/-! Particle factories, from particles.cpp.  They consume the C `rand()`
stream and the trig oracle; pushed in loop order. -/

/-- Builds `n` particles with the loop counter running `i, i+1, ...`,
threading the `rand()` stream, in push_back order. -/
def buildParticles (f : Nat → RNG → Particle × RNG) : Nat → Nat → RNG → List Particle × RNG
  | 0, _, r => ([], r)
  | n + 1, i, r =>
    let (p, r1) := f i r
    let (ps, r2) := buildParticles f n (i + 1) r1
    (p :: ps, r2)

/-- CreateExplosionParticles: per-size count/speed/life table and the
per-particle construction loop. -/
def createExplosionParticles (fo : FloatFns) (x y : ℚ) (size : AsteroidSize)
    (r : RNG) : List Particle × RNG :=
  let particleCount : Nat := match size with | SMALL => 6 | MEDIUM => 8 | LARGE => 12
  let particleSpeed : ℚ := match size with | SMALL => 3 | MEDIUM => 4 | LARGE => 5
  let particleLife : ℚ := match size with
    | SMALL => 8 / 10 | MEDIUM => 12 / 10 | LARGE => 15 / 10
  buildParticles
    (fun i r0 =>
      let (u1, r1) := randFloat r0
      let angle := (i : ℚ) / (particleCount : ℚ) * 2 * fo.piQ + u1 * (5 / 10)
      let (u2, r2) := randFloat r1
      let speed := particleSpeed * (5 / 10 + u2 * (5 / 10))
      let (u3, r3) := randFloat r2
      let life := particleLife * (7 / 10 + u3 * (3 / 10))
      let (m, r4) := randMod 3 r3
      let color := if m = 0 then LIGHTGRAY else WHITE
      let (u5, r5) := randFloat r4
      ({ x := x, y := y
         velocityX := fo.cosQ angle * speed
         velocityY := fo.sinQ angle * speed
         life := life, maxLife := life, color := color
         size := 2 + u5 * 2, active := true }, r5))
    particleCount 0 r

/-- CreateShipExplosionParticles: 15 debris particles spread around the
ship position. -/
def createShipExplosionParticles (fo : FloatFns) (x y : ℚ) (r : RNG) :
    List Particle × RNG :=
  buildParticles
    (fun i r0 =>
      let (u1, r1) := randFloat r0
      let (u2, r2) := randFloat r1
      let (u3, r3) := randFloat r2
      let angle := u3 * 2 * fo.piQ
      let (u4, r4) := randFloat r3
      let speed := 2 + u4 * 6
      let (u5, r5) := randFloat r4
      let life := 2 + u5 * 1
      let (u6, r6) := randFloat r5
      ({ x := x + (u1 - 5 / 10) * 10, y := y + (u2 - 5 / 10) * 10
         velocityX := fo.cosQ angle * speed
         velocityY := fo.sinQ angle * speed
         life := life, maxLife := life
         color := if i < 8 then WHITE else LIGHTGRAY
         size := 15 / 10 + u6 * 3, active := true }, r6))
    15 0 r

/-- CreateThrustParticles: 3 staggered exhaust particles behind the ship. -/
def createThrustParticles (fo : FloatFns) (x y rot : ℚ) (r : RNG) :
    List Particle × RNG :=
  buildParticles
    (fun i r0 =>
      let thrustOffset : ℚ := 15 + (i : ℚ) * 5
      let thrustPos := fo.rotatePoint 0 thrustOffset rot
      let (u1, r1) := randFloat r0
      let (u2, r2) := randFloat r1
      let thrustDir := fo.rotatePoint 0 1 rot
      let (u3, r3) := randFloat r2
      let (u4, r4) := randFloat r3
      let (u5, r5) := randFloat r4
      let (u6, r6) := randFloat r5
      let (u7, r7) := randFloat r6
      let (u8, r8) := randFloat r7
      ({ x := x + thrustPos.1 + (u1 - 5 / 10) * 4
         y := y + thrustPos.2 + (u2 - 5 / 10) * 4
         velocityX := thrustDir.1 * (1 + u3) + (u4 - 5 / 10) * 2
         velocityY := thrustDir.2 * (1 + u5) + (u6 - 5 / 10) * 2
         life := 3 / 10 + u7 * (2 / 10)
         maxLife := 3 / 10 + u7 * (2 / 10)
         color := if i = 0 then WHITE else SKYBLUE
         size := 1 + u8 * (15 / 10), active := true }, r8))
    3 0 r

/-! Logical input snapshot for one tick.  The source only ever queries the
keys through the fixed disjunctions below (e.g. `IsKeyDown(KEY_A) ||
IsKeyDown(KEY_LEFT)`), so each disjunction is one boolean. -/

structure Input where
  aOrLeftDown : Bool
  dOrRightDown : Bool
  wOrUpDown : Bool
  sOrDownDown : Bool
  spacePressed : Bool
  enterPressed : Bool
  escapePressed : Bool
  pPressed : Bool
  yPressed : Bool
  nPressed : Bool
  rPressed : Bool
  mPressed : Bool
  wOrUpPressed : Bool
  sOrDownPressed : Bool
  aOrLeftPressed : Bool
  dOrRightPressed : Bool
deriving DecidableEq

/-- The all-keys-idle input. -/
def Input.idle : Input :=
  ⟨false, false, false, false, false, false, false, false,
   false, false, false, false, false, false, false, false⟩

/-! The session state bundle: the globals of main.cpp and menu_system.cpp. -/

structure Game where
  state : GameState
  score : Int
  lives : Int
  currentWave : Int
  highScore : Int
  waveTransitionTimer : ℚ
  inputCooldownTimer : ℚ
  currentScale : Int
  ship : Ship
  bullets : List Bullet
  asteroids : List Asteroid
  particles : List Particle
  currentMenuItems : List MenuItem
  selectedMenuIndex : Int
  menuInitialized : Bool
  lastMenuContext : GameState
  lastLivesCount : Int
  lastPauseState : GameState
  exitRequested : Bool
  /-- Contents of highscore.dat as maintained by SaveHighScore. -/
  persistedHighScore : Int
  /-- raylib GetRandomValue stream. -/
  rng : RNG
  /-- C rand() stream, used by the particle factories. -/
  crng : RNG

/-! Ship input handling, from common.h HandleShipInput. -/

/-- HandleShipInput: rotation, thrust (with thrust particles), braking and
shooting, in source order.  Audio calls have no state effect and are
dropped. -/
def handleShipInput (fo : FloatFns) (inp : Input) (g : Game) : Game :=
  let s0 := g.ship
  let s1 := if inp.aOrLeftDown then { s0 with rotation := s0.rotation - 3 } else s0
  let s2 := if inp.dOrRightDown then { s1 with rotation := s1.rotation + 3 } else s1
  let thrustStep :=
    if inp.wOrUpDown then
      let d := fo.rotatePoint 0 (-(3 / 10)) s2.rotation
      let s := { s2 with velocityX := s2.velocityX + d.1, velocityY := s2.velocityY + d.2 }
      let trail := createThrustParticles fo s.x s.y s.rotation g.crng
      (s, g.particles ++ trail.1, trail.2)
    else (s2, g.particles, g.crng)
  let s3 := thrustStep.1
  let s4 :=
    if inp.sOrDownDown then
      let currentSpeed := fo.sqrtQ (s3.velocityX * s3.velocityX + s3.velocityY * s3.velocityY)
      let sB :=
        if currentSpeed > 1 / 20 then
          { s3 with
            velocityX := s3.velocityX - s3.velocityX / currentSpeed * (8 / 100)
            velocityY := s3.velocityY - s3.velocityY / currentSpeed * (8 / 100) }
        else s3
      let d := fo.rotatePoint 0 (45 / 100) sB.rotation
      { sB with
        velocityX := sB.velocityX + d.1 * (4 / 10)
        velocityY := sB.velocityY + d.2 * (4 / 10) }
    else s3
  let bullets :=
    if inp.spacePressed then
      let d := fo.rotatePoint 0 (-8) s4.rotation
      g.bullets ++
        [{ x := s4.x, y := s4.y
           velocityX := s4.velocityX + d.1, velocityY := s4.velocityY + d.2
           active := true }]
    else g.bullets
  { g with ship := s4, bullets := bullets, particles := thrustStep.2.1, crng := thrustStep.2.2 }

/-- UpdatePlayingPhysics: ship input, ship physics, bullet physics,
asteroid physics, in that order. -/
def updatePlayingPhysics (fo : FloatFns) (inp : Input) (g : Game) : Game :=
  let g := handleShipInput fo inp g
  { g with
    ship := updateShipPhysics fo g.ship
    bullets := updateBulletList g.bullets
    asteroids := updateAsteroidList g.asteroids }

/-! Collision & splitting engine, from game_logic.cpp. -/

/-- Per-size hazard radius: `(size == LARGE) ? 30 : (size == MEDIUM) ? 20 : 10`. -/
def asteroidRadius (size : AsteroidSize) : ℚ :=
  if size = LARGE then 30 else if size = MEDIUM then 20 else 10

/-- Bullet-asteroid proximity test; `sqrt(d2) < radius + 2` is embedded as
the equivalent `d2 < (radius + 2)^2`. -/
def bulletHits (b : Bullet) (a : Asteroid) : Bool :=
  decide ((b.x - a.x) ^ 2 + (b.y - a.y) ^ 2 < (asteroidRadius a.size + 2) ^ 2)

/-- Inner loop of HandleBulletAsteroidCollisions for one bullet: index and
value of the first live asteroid the bullet overlaps, skipping inactive
records. -/
def scanHit (b : Bullet) : List Asteroid → Option (Nat × Asteroid)
  | [] => none
  | a :: rest =>
    if a.active && bulletHits b a then some (0, a)
    else (scanHit b rest).map (fun p => (p.1 + 1, p.2))

/-- Fragment size of a destroyed hazard:
`(asteroid.size == LARGE) ? MEDIUM : SMALL`. -/
def childSize (s : AsteroidSize) : AsteroidSize :=
  if s = LARGE then MEDIUM else SMALL

/-- Score bracket of the destroyed size: Large 20, Medium 50, Small 100. -/
def scoreValue (size : AsteroidSize) : Int :=
  match size with
  | LARGE => 20
  | MEDIUM => 50
  | SMALL => 100

/-- Fragment block of HandleBulletAsteroidCollisions: if the destroyed size
is not SMALL, two children at the parent position, parent velocity plus a
`GetRandomValue(-2, 2)` jitter per axis, one size class smaller. -/
def splitFragments (a : Asteroid) (r : RNG) : List Asteroid × RNG :=
  if a.size ≠ SMALL then
    let s1 := getRandomValue (-2) 2 r
    let s2 := getRandomValue (-2) 2 s1.2
    let s3 := getRandomValue (-2) 2 s2.2
    let s4 := getRandomValue (-2) 2 s3.2
    let child := fun (jx jy : Int) =>
      { x := a.x, y := a.y
        velocityX := a.velocityX + (jx : ℚ), velocityY := a.velocityY + (jy : ℚ)
        size := childSize a.size
        rotation := 0, active := true : Asteroid }
    ([child s1.1 s2.1, child s3.1 s4.1], s4.2)
  else ([], r)

/-- One outer-loop step of HandleBulletAsteroidCollisions: an active bullet
scans for its first live overlapping asteroid; on a hit both are marked
dead, explosion particles are created, the score bracket is awarded and the
fragments are pushed at the end of the vector, then the inner loop breaks. -/
def processBullet (fo : FloatFns) (b : Bullet) (g : Game) : Bullet × Game :=
  if b.active = false then (b, g)
  else
    match scanHit b g.asteroids with
    | none => (b, g)
    | some (i, a) =>
      let explosion := createExplosionParticles fo a.x a.y a.size g.crng
      let split := splitFragments a g.rng
      ({ b with active := false },
       { g with
         asteroids := (g.asteroids.set i { a with active := false }) ++ split.1
         score := g.score + scoreValue a.size
         particles := g.particles ++ explosion.1
         crng := explosion.2, rng := split.2 })

/-- Outer loop of HandleBulletAsteroidCollisions over the bullet vector. -/
def processBullets (fo : FloatFns) : List Bullet → Game → List Bullet × Game
  | [], g => ([], g)
  | b :: bs, g =>
    let step := processBullet fo b g
    let rest := processBullets fo bs step.2
    (step.1 :: rest.1, rest.2)

def handleBulletAsteroidCollisions (fo : FloatFns) (g : Game) : Game :=
  let pass := processBullets fo g.bullets g
  { pass.2 with bullets := pass.1 }

/-- Ship-asteroid proximity test with ship radius 8; `sqrt(d2) < r` embedded
as `d2 < r^2`. -/
def shipHits (s : Ship) (a : Asteroid) : Bool :=
  decide ((s.x - a.x) ^ 2 + (s.y - a.y) ^ 2 < (asteroidRadius a.size + 8) ^ 2)

/-- CheckAndUpdateHighScore (main.cpp): update and save the high score iff
the current score exceeds it. -/
def checkAndUpdateHighScore (g : Game) : Game :=
  if g.score > g.highScore then
    { g with highScore := g.score, persistedHighScore := g.score }
  else g

/-- HandleShipAsteroidCollisions: at the first live overlapping asteroid,
spawn ship-explosion particles, decrement lives, then either enter the
spawn-guard state with the fixed cooldown (lives remain) or finalize the
high score and enter GAME_OVER.  Returns the C function's boolean. -/
def handleShipAsteroidCollisions (fo : FloatFns) (g : Game) : Bool × Game :=
  if g.asteroids.any (fun a => a.active && shipHits g.ship a) then
    let explosion := createShipExplosionParticles fo g.ship.x g.ship.y g.crng
    let g1 :=
      { g with particles := g.particles ++ explosion.1, crng := explosion.2, lives := g.lives - 1 }
    if g1.lives > 0 then
      (true, { g1 with state := WAITING_TO_SPAWN, inputCooldownTimer := BASE_COOLDOWN_DURATION })
    else
      (true, { checkAndUpdateHighScore g1 with state := GAME_OVER })
  else (false, g)

/-- Loop of CheckWaveCompletion: true when no asteroid is active. -/
def allAsteroidsDestroyed (as : List Asteroid) : Bool :=
  as.all (fun a => !a.active)

/-- CheckWaveCompletion: advance the wave counter and start the transition
countdown when every asteroid is destroyed. -/
def checkWaveCompletion (g : Game) : Game :=
  if allAsteroidsDestroyed g.asteroids then
    { g with
      currentWave := g.currentWave + 1
      state := WAVE_TRANSITION
      waveTransitionTimer := WAVE_TRANSITION_DURATION }
  else g

/-- CleanupInactiveObjects: erase/remove_if of inactive bullets and
asteroids. -/
def cleanupInactiveObjects (g : Game) : Game :=
  { g with
    bullets := g.bullets.filter (fun b => b.active)
    asteroids := g.asteroids.filter (fun a => a.active) }

/-! Spawn & wave director, from game_logic.cpp SpawnAsteroidWave and
ResetGameState, and menu_system.cpp StartNewGame. -/

/-- Fuel bound for the do-while resampling loop; `none` below stands for a
run of the C loop that never leaves the exclusion box. -/
def spawnSampleFuel : Nat := 1000000

/-- The do-while of SpawnAsteroidWave: sample a position, repeat while it is
inside the central exclusion box `|x - w/2| < 100 && |y - h/2| < 100`. -/
def sampleSpawnPos (sw sh : Int) : Nat → RNG → Option ((Int × Int) × RNG)
  | 0, _ => none
  | fuel + 1, r =>
    let (x, r1) := getRandomValue 0 sw r
    let (y, r2) := getRandomValue 0 sh r1
    if |x - sw / 2| < 100 ∧ |y - sh / 2| < 100 then sampleSpawnPos sw sh fuel r2
    else some ((x, y), r2)

/-- Per-wave speed scaling `1.0f + (wave - 1) * 0.2f`. -/
def speedMultiplier (wave : Int) : ℚ :=
  1 + ((wave : ℚ) - 1) * (2 / 10)

/-- One iteration of the SpawnAsteroidWave loop: resampled position, random
base velocity in [-2, 2] per axis scaled by the wave multiplier, LARGE,
rotation 0, active. -/
def spawnOneAsteroid (wave sw sh : Int) (r : RNG) : Option (Asteroid × RNG) :=
  match sampleSpawnPos sw sh spawnSampleFuel r with
  | none => none
  | some ((x, y), r1) =>
    let s1 := getRandomValue (-2) 2 r1
    let s2 := getRandomValue (-2) 2 s1.2
    some
      ({ x := (x : ℚ), y := (y : ℚ)
         velocityX := (s1.1 : ℚ) * speedMultiplier wave
         velocityY := (s2.1 : ℚ) * speedMultiplier wave
         size := LARGE, rotation := 0, active := true }, s2.2)

def spawnLoop (wave sw sh : Int) : Nat → RNG → Option (List Asteroid × RNG)
  | 0, r => some ([], r)
  | n + 1, r =>
    match spawnOneAsteroid wave sw sh r with
    | none => none
    | some (a, r1) =>
      match spawnLoop wave sw sh n r1 with
      | none => none
      | some (as, r2) => some (a :: as, r2)

/-- SpawnAsteroidWave: clears the vector and pushes `3 + wave` asteroids. -/
def spawnAsteroidWave (wave sw sh : Int) (r : RNG) : Option (List Asteroid × RNG) :=
  spawnLoop wave sw sh (3 + wave).toNat r

/-- The ship reset shared by ResetGameState, StartNewGame and the respawn
edge of WAITING_TO_SPAWN: field center, zero heading and velocity. -/
def centeredShip : Ship :=
  { x := (gameWidth : ℚ) / 2, y := (gameHeight : ℚ) / 2
    rotation := 0, velocityX := 0, velocityY := 0 }

/-- ResetGameState (game_logic.cpp). -/
def resetGameState (g : Game) : Game :=
  { g with
    score := 0, lives := MAX_LIVES, currentWave := 1
    waveTransitionTimer := WAVE_TRANSITION_DURATION
    ship := centeredShip, bullets := [], asteroids := [] }

/-- StartNewGame (menu_system.cpp): enter WAVE_TRANSITION with a fresh
session. -/
def startNewGame (g : Game) : Game :=
  { g with
    state := WAVE_TRANSITION
    score := 0, lives := MAX_LIVES, currentWave := 1
    waveTransitionTimer := WAVE_TRANSITION_DURATION
    ship := centeredShip, bullets := [], asteroids := [] }

/-! Dynamic menu system, from menu_system.cpp. -/

/-- HasActiveGame: a game is in progress iff lives > 0. -/
def hasActiveGame (g : Game) : Bool :=
  decide (g.lives > 0)

/-- The item list BuildMenuItems constructs for a context. -/
def menuItemsFor (context : GameState) (g : Game) : List MenuItem :=
  match context with
  | MENU =>
    (if hasActiveGame g then [⟨"Resume Game", ACTION_RESUME, false⟩] else []) ++
      [⟨"New Game", ACTION_NEW_GAME, false⟩,
       ⟨"High Scores", ACTION_HIGH_SCORES, false⟩,
       ⟨"Scale: " ++ toString g.currentScale ++ "x", ACTION_SCALE, true⟩,
       ⟨"Exit", ACTION_EXIT, false⟩]
  | PAUSED =>
    [⟨"Continue", ACTION_RESUME, false⟩, ⟨"Main Menu", ACTION_EXIT, false⟩]
  | _ => [⟨"Continue", ACTION_RESUME, false⟩]

/-- BuildMenuItems: rebuild the item vector and reset the selection. -/
def buildMenuItems (context : GameState) (g : Game) : Game :=
  { g with currentMenuItems := menuItemsFor context g, selectedMenuIndex := 0 }

/-- ExecuteMenuAction (menu_system.cpp). -/
def executeMenuAction (action : MenuActionType) (g : Game) : Game :=
  match action with
  | ACTION_RESUME =>
    if g.state = PAUSED then { g with state := PLAYING }
    else if hasActiveGame g then { g with state := PLAYING }
    else g
  | ACTION_NEW_GAME =>
    if hasActiveGame g then { g with state := NEW_GAME_CONFIRM }
    else startNewGame g
  | ACTION_HIGH_SCORES => { g with state := HIGH_SCORES }
  | ACTION_SCALE =>
    let g1 := { g with currentScale := g.currentScale % 4 + 1 }
    buildMenuItems (if g1.state = PAUSED then PAUSED else MENU) g1
  | ACTION_EXIT =>
    if g.state = PAUSED then { g with state := MENU }
    else { g with exitRequested := true }

/-- UpdateDynamicMenu: wrap-around navigation and guarded selection. -/
def updateDynamicMenu (inp : Input) (g : Game) : Game :=
  if g.currentMenuItems = [] then g
  else
    let n : Int := (g.currentMenuItems.length : Int)
    let g1 :=
      if inp.wOrUpPressed then
        { g with selectedMenuIndex := (g.selectedMenuIndex - 1 + n) % n }
      else g
    let g2 :=
      if inp.sOrDownPressed then
        { g1 with selectedMenuIndex := (g1.selectedMenuIndex + 1) % n }
      else g1
    if inp.enterPressed || inp.spacePressed then
      if 0 ≤ g2.selectedMenuIndex ∧ g2.selectedMenuIndex < n then
        match g2.currentMenuItems[g2.selectedMenuIndex.toNat]? with
        | some item => executeMenuAction item.action g2
        | none => g2
      else g2
    else g2

/-- UpdateUnifiedMenu: rebuild the MENU items when uninitialized, the
context changed or lives changed, then run the dynamic menu. -/
def updateUnifiedMenu (inp : Input) (g : Game) : Game :=
  let g1 :=
    if g.menuInitialized = false ∨ g.lastMenuContext ≠ MENU ∨ g.lastLivesCount ≠ g.lives then
      { buildMenuItems MENU g with
        menuInitialized := true, lastMenuContext := MENU, lastLivesCount := g.lives }
    else g
  updateDynamicMenu inp g1

/-! The per-tick update of main.cpp's game loop (the UPDATE switch followed
by the all-states particle update).  Rendering and audio are out of scope;
the only loop-control effect (shouldExit) is kept as the exitRequested
flag. -/

/-- The respawn-key disjunction of the WAITING_TO_SPAWN handler
(SPACE, ENTER, W, UP, A, LEFT, S, DOWN, D, RIGHT pressed). -/
def spawnKeyPressed (inp : Input) : Bool :=
  inp.spacePressed || inp.enterPressed || inp.wOrUpPressed ||
    inp.aOrLeftPressed || inp.sOrDownPressed || inp.dOrRightPressed

/-- WAITING_TO_SPAWN handler: count the input lockout down, respawn at the
field center on a qualifying input once it expired, keep asteroids moving. -/
def waitingToSpawnUpdate (inp : Input) (dt : ℚ) (g : Game) : Game :=
  let g1 :=
    if g.inputCooldownTimer > 0 then
      { g with inputCooldownTimer := g.inputCooldownTimer - dt }
    else g
  let g2 :=
    if g1.inputCooldownTimer ≤ 0 ∧ spawnKeyPressed inp then
      { g1 with state := PLAYING, ship := centeredShip }
    else g1
  { g2 with asteroids := updateAsteroidList g2.asteroids }

/-- PLAYING handler: pause check, then physics, bullet and ship collisions
(breaking out when the ship was destroyed), wave completion, cleanup. -/
def playingUpdate (fo : FloatFns) (inp : Input) (g : Game) : Game :=
  if inp.pPressed then { g with state := PAUSED }
  else
    let g1 := updatePlayingPhysics fo inp g
    let g2 := handleBulletAsteroidCollisions fo g1
    let hit := handleShipAsteroidCollisions fo g2
    if hit.1 then hit.2
    else cleanupInactiveObjects (checkWaveCompletion hit.2)

/-- PAUSED handler: quick unpause on P, otherwise the dynamic pause menu
(rebuilt once, tracked by the static lastPauseState). -/
def pausedUpdate (inp : Input) (g : Game) : Game :=
  if inp.pPressed then { g with state := PLAYING }
  else
    let g1 :=
      if g.lastPauseState ≠ PAUSED then
        { buildMenuItems PAUSED g with lastPauseState := PAUSED }
      else g
    updateDynamicMenu inp g1

/-- One tick of the main.cpp update section: the gameplay-only ESC handler,
the state switch, then the all-states particle update and particle cleanup.
`none` models a tick in which the wave-spawn resampling loop never
terminated. -/
def tick (fo : FloatFns) (inp : Input) (dt : ℚ) (g : Game) : Option Game :=
  let g :=
    if inp.escapePressed ∧ (g.state = PLAYING ∨ g.state = WAITING_TO_SPAWN) then
      { g with state := MENU }
    else g
  let afterSwitch : Option Game :=
    match g.state with
    | MENU => some (updateUnifiedMenu inp g)
    | NEW_GAME_CONFIRM =>
      some
        (if inp.yPressed then startNewGame g
         else if inp.nPressed ∨ inp.escapePressed then { g with state := MENU }
         else g)
    | HIGH_SCORES =>
      some
        (if inp.escapePressed ∨ inp.mPressed ∨ inp.enterPressed ∨ inp.spacePressed then
           { g with state := MENU }
         else g)
    | GAME_OVER =>
      some
        (if inp.rPressed ∨ inp.enterPressed then
           { resetGameState g with
             state := WAVE_TRANSITION, inputCooldownTimer := BASE_COOLDOWN_DURATION }
         else if inp.mPressed ∨ inp.escapePressed then { g with state := MENU }
         else g)
    | WAVE_TRANSITION =>
      let g1 := { g with waveTransitionTimer := g.waveTransitionTimer - dt }
      if g1.waveTransitionTimer ≤ (0 : ℚ) then
        match spawnAsteroidWave g1.currentWave gameWidth gameHeight g1.rng with
        | none => none
        | some (as, r) => some { g1 with state := WAITING_TO_SPAWN, asteroids := as, rng := r }
      else some g1
    | WAITING_TO_SPAWN => some (waitingToSpawnUpdate inp dt g)
    | PLAYING => some (playingUpdate fo inp g)
    | PAUSED => some (pausedUpdate inp g)
  match afterSwitch with
  | none => none
  | some g' =>
    some { g' with particles := cleanupParticleList (updateParticleList dt g'.particles) }

/-! Concrete fixtures used by the witness theorems. -/

/-- The all-zero random stream. -/
def rngZero : RNG := ⟨fun _ => 0, 0⟩

/-- A concrete interpretation of the float oracle, used only to instantiate
witnesses; no theorem depends on its values. -/
def foZero : FloatFns :=
  { sqrtQ := fun _ => 0, rotatePoint := fun _ _ _ => (0, 0)
    cosQ := fun _ => 0, sinQ := fun _ => 0, piQ := 0 }

/-- A quiescent baseline session used as the starting point of witness
states. -/
def baseGame : Game :=
  { state := MENU, score := 0, lives := 0, currentWave := 1, highScore := 0
    waveTransitionTimer := 0, inputCooldownTimer := 0, currentScale := 2
    ship := centeredShip, bullets := [], asteroids := [], particles := []
    currentMenuItems := [], selectedMenuIndex := 0, menuInitialized := false
    lastMenuContext := MENU, lastLivesCount := -1, lastPauseState := PLAYING
    exitRequested := false, persistedHighScore := 0
    rng := rngZero, crng := rngZero }

/-- The fields of the session that pausing is meant to freeze: every Ship,
Bullet and Hazard record, both countdown timers, and the session scalars. -/
def frozenFields (g : Game) :
    Ship × List Bullet × List Asteroid × ℚ × ℚ × Int × Int × Int × GameState :=
  (g.ship, g.bullets, g.asteroids, g.waveTransitionTimer, g.inputCooldownTimer,
   g.score, g.lives, g.currentWave, g.state)

/-- The session after the first two stages of the PLAYING branch of
main.cpp: physics followed by the bullet-asteroid collision pass. -/
def afterBulletPass (fo : FloatFns) (inp : Input) (g : Game) : Game :=
  handleBulletAsteroidCollisions fo (updatePlayingPhysics fo inp g)

/-- The asteroid population at the moment the PLAYING branch of main.cpp
calls CheckWaveCompletion: after the two collision passes, before
CleanupInactiveObjects. -/
def asteroidsAtWaveCheck (fo : FloatFns) (inp : Input) (g : Game) : List Asteroid :=
  (handleShipAsteroidCollisions fo (afterBulletPass fo inp g)).2.asteroids

/-- Coordinates lie in the toroidal field `[0, gameWidth] × [0, gameHeight]`. -/
def posInField (x y : ℚ) : Prop :=
  0 ≤ x ∧ x ≤ (gameWidth : ℚ) ∧ 0 ≤ y ∧ y ≤ (gameHeight : ℚ)

/-- A live particle in mid-flight, used by the C1 counterexample. -/
def driftingParticle : Particle :=
  { x := 10, y := 10, velocityX := 1, velocityY := 0, life := 1, maxLife := 1
    color := WHITE, size := 2, active := true }

/-- A paused session holding one drifting particle. -/
def pausedGame : Game :=
  { baseGame with state := PAUSED, lives := 3, particles := [driftingParticle] }

/-- A main-menu session with an active game, used by the C10 witness. -/
def menuGame : Game := { baseGame with lives := 3 }

/-- A live asteroid used by the C8 witness. -/
def wrapAsteroid : Asteroid :=
  { x := 795, y := 5, velocityX := 20, velocityY := -20, size := LARGE
    rotation := 0, active := true }

/-- What SpawnAsteroidWave guarantees of every spawned hazard: Large,
live, random base velocity in `[-2, 2]` per axis scaled by the wave
multiplier, and an integer position outside the central exclusion box. -/
def wellSpawned (wave sw sh : Int) (a : Asteroid) : Prop :=
  a.size = LARGE ∧ a.active = true ∧ a.rotation = 0 ∧
    (∃ bx : Int, |bx| ≤ 2 ∧ a.velocityX = (bx : ℚ) * speedMultiplier wave) ∧
    (∃ bv : Int, |bv| ≤ 2 ∧ a.velocityY = (bv : ℚ) * speedMultiplier wave) ∧
    (∃ xi yi : Int, a.x = (xi : ℚ) ∧ a.y = (yi : ℚ) ∧
      ¬(|xi - sw / 2| < 100 ∧ |yi - sh / 2| < 100))

/-- Count of records a bullet pass flipped from live to dead, compared
position by position. -/
def deactivatedCount (old new : List Asteroid) : Nat :=
  (old.zip new).countP fun pr => pr.1.active && !pr.2.active

/-- A bullet sitting on the field-center hazard, used by the C3, C4 and C7
fixtures. -/
def centerBullet : Bullet :=
  { x := 400, y := 300, velocityX := 0, velocityY := 0, active := true }

/-- A live Large hazard at the field center. -/
def centerAsteroid : Asteroid :=
  { x := 400, y := 300, velocityX := 0, velocityY := 0, size := LARGE
    rotation := 0, active := true }

/-- A PLAYING session about to lose its last life on the center hazard,
used by the C2 witness. -/
def collideGame : Game :=
  { baseGame with
    state := PLAYING, lives := 1, score := 30, highScore := 10, persistedHighScore := 10
    asteroids := [centerAsteroid] }

/-- A PLAYING session in which a bullet kill leaves a dead record in the
population inspected by the wave check, used by the C4 counterexample. -/
def waveCheckGame : Game :=
  { baseGame with
    state := PLAYING, lives := 3
    ship := { x := 100, y := 100, rotation := 0, velocityX := 0, velocityY := 0 }
    bullets := [centerBullet], asteroids := [centerAsteroid] }

/-- A PLAYING session with empty populations, used by the C4 witness. -/
def quietPlayingGame : Game := { baseGame with state := PLAYING, lives := 3 }

/-! Helper lemmas. -/

/-- With no key pressed the dynamic menu changes nothing. -/
theorem updateDynamicMenu_idle (inp : Input) (g : Game) (h1 : inp.wOrUpPressed = false)
    (h2 : inp.sOrDownPressed = false) (h3 : inp.enterPressed = false)
    (h4 : inp.spacePressed = false) : updateDynamicMenu inp g = g := by
  simp [updateDynamicMenu, h1, h2, h3, h4]

/-- With no key pressed the unified-menu handler touches only the menu
bookkeeping fields. -/
theorem frozenFields_updateUnifiedMenu (g : Game) :
    frozenFields (updateUnifiedMenu Input.idle g) = frozenFields g ∧
      (updateUnifiedMenu Input.idle g).particles = g.particles := by
  by_cases h : g.menuInitialized = false ∨ g.lastMenuContext ≠ MENU ∨ g.lastLivesCount ≠ g.lives <;>
    simp [updateUnifiedMenu, updateDynamicMenu_idle, buildMenuItems, h, frozenFields, Input.idle]

/-- With no key pressed the pause handler touches only the menu
bookkeeping fields. -/
theorem frozenFields_pausedUpdate (g : Game) :
    frozenFields (pausedUpdate Input.idle g) = frozenFields g ∧
      (pausedUpdate Input.idle g).particles = g.particles := by
  by_cases h : g.lastPauseState = PAUSED <;>
    simp [pausedUpdate, updateDynamicMenu_idle, buildMenuItems, h, frozenFields, Input.idle]

/-- C1, counterexample: in a PAUSED tick with no input, the drifting
particle's position still advances (from x = 10 to x = 11), because
main.cpp runs UpdateParticles in every state.  This refutes the claim that
no entity field changes in PAUSED or menu-like states. -/
theorem c1_counterexample :
    pausedGame.state = PAUSED ∧
      (tick foZero Input.idle (1 / 60) pausedGame).map (fun g => g.particles.map Particle.x) =
        some [11] ∧
      pausedGame.particles.map Particle.x = [10] := by
  refine ⟨rfl, ?_, rfl⟩
  norm_num [tick, pausedUpdate, updateDynamicMenu, pausedGame, baseGame, Input.idle,
    updateParticleList, updateParticle, cleanupParticleList, driftingParticle, wrapCoord,
    gameWidth, gameHeight, buildMenuItems, menuItemsFor, apply_ite Game.particles]

/-- C1 (amended): in a PAUSED or menu-like tick with no input pressed, the
Ship, every Bullet, every Hazard, both countdown timers and the session
scalars are unchanged; the Particles, however, are simulated and compacted
in every state. -/
theorem c1_frozen_states (fo : FloatFns) (dt : ℚ) (g : Game)
    (h : g.state = PAUSED ∨ g.state = MENU ∨ g.state = NEW_GAME_CONFIRM ∨
      g.state = HIGH_SCORES ∨ g.state = GAME_OVER) :
    ∃ g', tick fo Input.idle dt g = some g' ∧
      frozenFields g' = frozenFields g ∧
      g'.particles = cleanupParticleList (updateParticleList dt g.particles) := by
  rcases h with h | h | h | h | h
  · obtain ⟨hf, hp⟩ := frozenFields_pausedUpdate g
    refine ⟨{ pausedUpdate Input.idle g with
        particles := cleanupParticleList (updateParticleList dt (pausedUpdate Input.idle g).particles) },
      by simp [tick, h, Input.idle], ?_, by simp [hp]⟩
    simp only [frozenFields, Prod.mk.injEq] at hf ⊢
    simpa using hf
  · obtain ⟨hf, hp⟩ := frozenFields_updateUnifiedMenu g
    refine ⟨{ updateUnifiedMenu Input.idle g with
        particles :=
          cleanupParticleList (updateParticleList dt (updateUnifiedMenu Input.idle g).particles) },
      by simp [tick, h, Input.idle], ?_, by simp [hp]⟩
    simp only [frozenFields, Prod.mk.injEq] at hf ⊢
    simpa using hf
  · exact ⟨{ g with particles := cleanupParticleList (updateParticleList dt g.particles) },
      by simp [tick, h, Input.idle], by simp [frozenFields], by simp⟩
  · exact ⟨{ g with particles := cleanupParticleList (updateParticleList dt g.particles) },
      by simp [tick, h, Input.idle], by simp [frozenFields], by simp⟩
  · exact ⟨{ g with particles := cleanupParticleList (updateParticleList dt g.particles) },
      by simp [tick, h, Input.idle], by simp [frozenFields], by simp⟩

/-- C1 witness: the amended theorem applied to the concrete paused
session. -/
theorem c1_frozen_states_witness :
    (tick foZero Input.idle (1 / 60) pausedGame).map frozenFields =
      some (frozenFields pausedGame) ∧
      (tick foZero Input.idle (1 / 60) pausedGame).map Game.particles =
        some (cleanupParticleList (updateParticleList (1 / 60) pausedGame.particles)) := by
  obtain ⟨g', h1, h2, h3⟩ := c1_frozen_states foZero (1 / 60) pausedGame (Or.inl rfl)
  rw [h1]
  exact ⟨by rw [Option.map_some', h2], by rw [Option.map_some', h3]⟩

/-- C9: lifecycle compaction is idempotent: running CleanupInactiveObjects
or CleanupParticles twice in a row yields the same populations as running
it once. -/
theorem c9_cleanup_idempotent (g : Game) :
    cleanupInactiveObjects (cleanupInactiveObjects g) = cleanupInactiveObjects g ∧
      (∀ ps : List Particle, cleanupParticleList (cleanupParticleList ps) = cleanupParticleList ps) := by
  constructor
  · simp [cleanupInactiveObjects, List.filter_filter]
  · intro ps
    simp [cleanupParticleList, List.filter_filter]

/-- C10: the menu's notion of an active session is exactly lives > 0:
New Game asks for confirmation iff lives > 0 and otherwise starts a fresh
session immediately, and the Resume item is offered in the main menu iff
lives > 0. -/
theorem c10_active_session_menu (g : Game) (hmenu : g.state = MENU) :
    ((executeMenuAction ACTION_NEW_GAME g).state =
        if 0 < g.lives then NEW_GAME_CONFIRM else WAVE_TRANSITION) ∧
      (0 < g.lives → executeMenuAction ACTION_NEW_GAME g = { g with state := NEW_GAME_CONFIRM }) ∧
      (¬0 < g.lives → executeMenuAction ACTION_NEW_GAME g = startNewGame g) ∧
      ((menuItemsFor MENU g).any (fun it => decide (it.action = ACTION_RESUME)) = true ↔
        0 < g.lives) := by
  by_cases hl : 0 < g.lives <;>
    simp [executeMenuAction, hasActiveGame, menuItemsFor, hl, startNewGame, hmenu]

/-- C10 witness: at three lives the main menu offers Resume and New Game
asks for confirmation; the theorem applied to the concrete session. -/
theorem c10_active_session_menu_witness :
    ((executeMenuAction ACTION_NEW_GAME menuGame).state =
        if 0 < menuGame.lives then NEW_GAME_CONFIRM else WAVE_TRANSITION) ∧
      (0 < menuGame.lives →
        executeMenuAction ACTION_NEW_GAME menuGame = { menuGame with state := NEW_GAME_CONFIRM }) ∧
      (¬0 < menuGame.lives → executeMenuAction ACTION_NEW_GAME menuGame = startNewGame menuGame) ∧
      ((menuItemsFor MENU menuGame).any (fun it => decide (it.action = ACTION_RESUME)) = true ↔
        0 < menuGame.lives) :=
  c10_active_session_menu menuGame rfl

/-- C6: a bullet-asteroid collision raises the score by exactly the
destroyed size's bracket (Large 20, Medium 50, Small 100) and a bullet
pass with no hit leaves the score unchanged. -/
theorem c6_score_brackets (fo : FloatFns) (b : Bullet) (g : Game) :
    ((processBullet fo b g).2.score =
        g.score +
          (match b.active, scanHit b g.asteroids with
           | true, some (_, a) => scoreValue a.size
           | _, _ => 0)) ∧
      scoreValue LARGE = 20 ∧ scoreValue MEDIUM = 50 ∧ scoreValue SMALL = 100 := by
  refine ⟨?_, rfl, rfl, rfl⟩
  cases hb : b.active
  · simp [processBullet, hb]
  · cases hs : scanHit b g.asteroids with
    | none => simp [processBullet, hb, hs]
    | some pr =>
      obtain ⟨i, a⟩ := pr
      simp [processBullet, hb, hs]

/-- The sequential two-branch wrap keeps a coordinate inside `[0, w]`. -/
theorem wrapCoord_mem (w x : ℚ) (hw : 0 ≤ w) : 0 ≤ wrapCoord w x ∧ wrapCoord w x ≤ w := by
  simp only [wrapCoord]
  split_ifs with h1 h2 h3 <;> constructor <;> linarith

/-- C8: after integration every wrapping entity (the Ship, every live
Hazard, every live Particle) lies in `[0, gameWidth] × [0, gameHeight]`;
a coordinate that crossed 0 is placed at the far edge and one that crossed
the field extent at 0 (toroidal wrap, not a bounce). -/
theorem c8_wrap_bounds (fo : FloatFns) (s : Ship) (as : List Asteroid) (dt : ℚ)
    (ps : List Particle) :
    posInField (updateShipPhysics fo s).x (updateShipPhysics fo s).y ∧
      (∀ a ∈ updateAsteroidList as, a.active = true → posInField a.x a.y) ∧
      (∀ p ∈ updateParticleList dt ps, p.active = true → posInField p.x p.y) ∧
      (∀ x : ℚ, x < 0 → wrapCoord (gameWidth : ℚ) x = (gameWidth : ℚ)) ∧
      (∀ x : ℚ, 0 ≤ x → (gameWidth : ℚ) < x → wrapCoord (gameWidth : ℚ) x = 0) := by
  have hw : (0 : ℚ) ≤ (gameWidth : ℚ) := by norm_num [gameWidth]
  have hh : (0 : ℚ) ≤ (gameHeight : ℚ) := by norm_num [gameHeight]
  refine ⟨?_, ?_, ?_, ?_, ?_⟩
  · obtain ⟨hx1, hx2⟩ := wrapCoord_mem (gameWidth : ℚ)
      ((s.x + if fo.sqrtQ (s.velocityX * (99 / 100) * (s.velocityX * (99 / 100)) +
          s.velocityY * (99 / 100) * (s.velocityY * (99 / 100))) > 8 then
          s.velocityX * (99 / 100) / fo.sqrtQ (s.velocityX * (99 / 100) * (s.velocityX * (99 / 100)) +
            s.velocityY * (99 / 100) * (s.velocityY * (99 / 100))) * 8
        else s.velocityX * (99 / 100))) hw
    obtain ⟨hy1, hy2⟩ := wrapCoord_mem (gameHeight : ℚ)
      ((s.y + if fo.sqrtQ (s.velocityX * (99 / 100) * (s.velocityX * (99 / 100)) +
          s.velocityY * (99 / 100) * (s.velocityY * (99 / 100))) > 8 then
          s.velocityY * (99 / 100) / fo.sqrtQ (s.velocityX * (99 / 100) * (s.velocityX * (99 / 100)) +
            s.velocityY * (99 / 100) * (s.velocityY * (99 / 100))) * 8
        else s.velocityY * (99 / 100))) hh
    exact ⟨hx1, hx2, hy1, hy2⟩
  · intro a ha hact
    obtain ⟨a0, _, rfl⟩ := List.mem_map.mp ha
    by_cases h0 : a0.active = false
    · rw [updateAsteroid, if_pos h0] at hact
      exact absurd hact (by simp [h0])
    · rw [updateAsteroid, if_neg h0]
      obtain ⟨hx1, hx2⟩ := wrapCoord_mem (gameWidth : ℚ) (a0.x + a0.velocityX) hw
      obtain ⟨hy1, hy2⟩ := wrapCoord_mem (gameHeight : ℚ) (a0.y + a0.velocityY) hh
      exact ⟨hx1, hx2, hy1, hy2⟩
  · intro p hp hact
    obtain ⟨p0, _, rfl⟩ := List.mem_map.mp hp
    by_cases h0 : p0.active = false
    · rw [updateParticle, if_pos h0] at hact
      exact absurd hact (by simp [h0])
    · rw [updateParticle, if_neg h0]
      obtain ⟨hx1, hx2⟩ := wrapCoord_mem (gameWidth : ℚ) (p0.x + p0.velocityX) hw
      obtain ⟨hy1, hy2⟩ := wrapCoord_mem (gameHeight : ℚ) (p0.y + p0.velocityY) hh
      exact ⟨hx1, hx2, hy1, hy2⟩
  · intro x hx
    simp only [wrapCoord, if_pos hx]
    rw [if_neg (lt_irrefl _)]
  · intro x hx0 hxw
    have : ¬x < 0 := not_lt.mpr hx0
    simp only [wrapCoord, if_neg this]
    rw [if_pos hxw]

/-- C8 witness: the theorem applied to the centered ship and a live
asteroid about to cross both field edges. -/
theorem c8_wrap_bounds_witness :
    posInField (updateShipPhysics foZero centeredShip).x (updateShipPhysics foZero centeredShip).y ∧
      posInField (updateAsteroid wrapAsteroid).x (updateAsteroid wrapAsteroid).y := by
  obtain ⟨h1, h2, -, -, -⟩ := c8_wrap_bounds foZero centeredShip [wrapAsteroid] 0 []
  refine ⟨h1, h2 (updateAsteroid wrapAsteroid) (by simp [updateAsteroidList]) ?_⟩
  simp [updateAsteroid, wrapAsteroid]

/-- getRandomValue lands in the requested closed interval. -/
theorem getRandomValue_mem (lo hi : Int) (r : RNG) (h : lo ≤ hi) :
    lo ≤ (getRandomValue lo hi r).1 ∧ (getRandomValue lo hi r).1 ≤ hi := by
  have hne : hi - lo + 1 ≠ 0 := by omega
  have h1 := Int.emod_nonneg (r.stream r.idx) hne
  have h2 := Int.emod_lt_of_pos (r.stream r.idx) (by omega : 0 < hi - lo + 1)
  constructor
  · simp only [getRandomValue]
    omega
  · simp only [getRandomValue]
    omega

/-- A position the resampling loop returns is outside the exclusion box. -/
theorem sampleSpawnPos_sound (sw sh : Int) :
    ∀ (fuel : Nat) (r : RNG) (x y : Int) (r' : RNG),
      sampleSpawnPos sw sh fuel r = some ((x, y), r') →
      ¬(|x - sw / 2| < 100 ∧ |y - sh / 2| < 100) := by
  intro fuel
  induction fuel with
  | zero =>
    intro r x y r' h
    exact absurd h (by simp [sampleSpawnPos])
  | succ n ih =>
    intro r x y r' h
    simp only [sampleSpawnPos] at h
    by_cases hc : |(getRandomValue 0 sw r).1 - sw / 2| < 100 ∧
        |(getRandomValue 0 sh (getRandomValue 0 sw r).2).1 - sh / 2| < 100
    · rw [if_pos hc] at h
      exact ih _ x y r' h
    · rw [if_neg hc] at h
      obtain ⟨h1, h2⟩ := Prod.mk.injEq .. ▸ Option.some.inj h
      obtain ⟨hx, hy⟩ := Prod.mk.injEq .. ▸ h1
      rw [← hx, ← hy]
      exact hc

/-- Every asteroid the spawn loop produces satisfies the per-hazard
contract of SpawnAsteroidWave. -/
theorem spawnOneAsteroid_sound (wave sw sh : Int) (r : RNG) (a : Asteroid) (r' : RNG)
    (h : spawnOneAsteroid wave sw sh r = some (a, r')) : wellSpawned wave sw sh a := by
  rcases hs : sampleSpawnPos sw sh spawnSampleFuel r with - | ⟨⟨x, y⟩, r1⟩
  · rw [spawnOneAsteroid, hs] at h
    exact absurd h (by simp)
  · rw [spawnOneAsteroid, hs] at h
    simp only [Option.some.injEq, Prod.mk.injEq] at h
    obtain ⟨ha, -⟩ := h
    obtain ⟨hb1, hb2⟩ := getRandomValue_mem (-2) 2 r1 (by omega)
    obtain ⟨hc1, hc2⟩ :=
      getRandomValue_mem (-2) 2 (getRandomValue (-2) 2 r1).2 (by omega)
    subst ha
    refine ⟨rfl, rfl, rfl, ?_, ?_, ?_⟩
    · exact ⟨(getRandomValue (-2) 2 r1).1, abs_le.mpr ⟨hb1, hb2⟩, rfl⟩
    · exact ⟨(getRandomValue (-2) 2 (getRandomValue (-2) 2 r1).2).1,
        abs_le.mpr ⟨hc1, hc2⟩, rfl⟩
    · exact ⟨x, y, rfl, rfl, sampleSpawnPos_sound sw sh _ r x y r1 hs⟩

/-- The spawn loop produces exactly the requested number of hazards, all
satisfying the per-hazard contract. -/
theorem spawnLoop_sound (wave sw sh : Int) :
    ∀ (n : Nat) (r : RNG) (as : List Asteroid) (r' : RNG),
      spawnLoop wave sw sh n r = some (as, r') →
      as.length = n ∧ ∀ a ∈ as, wellSpawned wave sw sh a := by
  intro n
  induction n with
  | zero =>
    intro r as r' h
    simp only [spawnLoop] at h
    obtain ⟨h1, -⟩ := Prod.mk.injEq .. ▸ Option.some.inj h
    subst h1
    simp
  | succ n ih =>
    intro r as r' h
    rcases h1 : spawnOneAsteroid wave sw sh r with - | ⟨a, r1⟩
    · simp only [spawnLoop, h1] at h
      exact Option.noConfusion h
    · rcases h2 : spawnLoop wave sw sh n r1 with - | ⟨as1, r2⟩
      · simp only [spawnLoop, h1, h2] at h
        exact Option.noConfusion h
      · simp only [spawnLoop, h1, h2, Option.some.injEq, Prod.mk.injEq] at h
        obtain ⟨h3, -⟩ := h
        subst h3
        obtain ⟨hl, hall⟩ := ih r1 as1 r2 h2
        refine ⟨by simp [hl], ?_⟩
        intro b hb
        rcases List.mem_cons.mp hb with hb | hb
        · subst hb
          exact spawnOneAsteroid_sound wave sw sh r b r1 h1
        · exact hall b hb

/-- C5: a terminating SpawnAsteroidWave run for wave n produces exactly
3 + n hazards, all Large and live, each with per-axis velocity a bounded
random base in [-2, 2] scaled by 1 + (n-1)*0.2, and each positioned
outside the central exclusion box. -/
theorem c5_wave_spawn (wave : Int) (hw : 1 ≤ wave) (r : RNG) (as : List Asteroid) (r' : RNG)
    (h : spawnAsteroidWave wave gameWidth gameHeight r = some (as, r')) :
    (as.length : Int) = 3 + wave ∧ ∀ a ∈ as, wellSpawned wave gameWidth gameHeight a := by
  obtain ⟨hl, hall⟩ := spawnLoop_sound wave gameWidth gameHeight (3 + wave).toNat r as r' h
  refine ⟨?_, hall⟩
  rw [hl]
  omega

/-- C5 witness: wave 1 with the all-zero stream spawns exactly 4 Large
hazards at speed multiplier 1. -/
theorem c5_wave_spawn_witness :
    (spawnAsteroidWave 1 gameWidth gameHeight rngZero).map (fun pr => (pr.1.length : Int)) =
        some (3 + 1) ∧
      (spawnAsteroidWave 1 gameWidth gameHeight rngZero).map
          (fun pr => pr.1.all fun a => decide (a.size = LARGE)) = some true ∧
      speedMultiplier 1 = 1 := by
  have hs : (spawnAsteroidWave 1 gameWidth gameHeight rngZero).isSome = true := rfl
  rcases heq : spawnAsteroidWave 1 gameWidth gameHeight rngZero with - | ⟨as, r'⟩
  · rw [heq] at hs
    exact Bool.noConfusion hs
  · obtain ⟨h1, h2⟩ := c5_wave_spawn 1 (by omega) rngZero as r' heq
    simp only [Option.map_some', Option.some.injEq]
    refine ⟨h1, ?_, by norm_num [speedMultiplier]⟩
    rw [List.all_eq_true]
    intro a ha
    exact decide_eq_true (h2 a ha).1

/-- scanHit returns the index and the value of a live overlapping
asteroid. -/
theorem scanHit_sound (b : Bullet) :
    ∀ (as : List Asteroid) (i : Nat) (a : Asteroid),
      scanHit b as = some (i, a) →
      as[i]? = some a ∧ a.active = true ∧ bulletHits b a = true := by
  intro as
  induction as with
  | nil =>
    intro i a h
    simp [scanHit] at h
  | cons a0 rest ih =>
    intro i a h
    by_cases hc : (a0.active && bulletHits b a0) = true
    · rw [scanHit, if_pos hc] at h
      simp only [Option.some.injEq, Prod.mk.injEq] at h
      obtain ⟨hi, ha⟩ := h
      subst hi
      subst ha
      simp only [Bool.and_eq_true] at hc
      exact ⟨by simp, hc.1, hc.2⟩
    · rw [scanHit, if_neg hc] at h
      rcases hs : scanHit b rest with - | ⟨j, a1⟩
      · rw [hs] at h
        exact Option.noConfusion h
      · rw [hs] at h
        simp only [Option.map_some', Option.some.injEq, Prod.mk.injEq] at h
        obtain ⟨hi, ha⟩ := h
        subst hi
        subst ha
        obtain ⟨h1, h2, h3⟩ := ih j a1 hs
        exact ⟨by simpa using h1, h2, h3⟩

/-- A population compared with itself has no fresh deactivations. -/
theorem deactivatedCount_self (as : List Asteroid) : deactivatedCount as as = 0 := by
  induction as with
  | nil => rfl
  | cons a rest ih =>
    simp only [deactivatedCount, List.zip_cons_cons, List.countP_cons] at ih ⊢
    simp [ih]

/-- Deactivating the record at one known index flips at most one liveness
flag. -/
theorem deactivatedCount_set (as : List Asteroid) :
    ∀ (i : Nat) (a : Asteroid), as[i]? = some a →
      deactivatedCount as (as.set i { a with active := false }) ≤ 1 := by
  induction as with
  | nil =>
    intro i a h
    simp at h
  | cons a0 rest ih =>
    intro i a h
    cases i with
    | zero =>
      simp only [List.getElem?_cons_zero, Option.some.injEq] at h
      subst h
      have h0 := deactivatedCount_self rest
      simp only [deactivatedCount, List.set_cons_zero, List.zip_cons_cons, List.countP_cons] at h0 ⊢
      simp [h0]
      split <;> omega
    | succ j =>
      simp only [List.getElem?_cons_succ] at h
      have h0 := ih j a h
      simp only [deactivatedCount, List.set_cons_succ, List.zip_cons_cons, List.countP_cons]
        at h0 ⊢
      simpa using h0

/-- Records appended past the end of the original population do not count
as deactivations. -/
theorem deactivatedCount_append (as l extra : List Asteroid) (h : as.length = l.length) :
    deactivatedCount as (l ++ extra) = deactivatedCount as l := by
  unfold deactivatedCount
  conv_lhs => rw [← List.append_nil as]
  rw [List.zip_append h]
  simp

/-- C7: a bullet registers at most one collision per pass: at most one
asteroid record is flipped from live to dead, and once the first live
overlapping hazard is found the bullet and that hazard are both marked
dead while every other original record is left as it was, whatever the
order of the hazard population. -/
theorem c7_one_kill_per_bullet (fo : FloatFns) (b : Bullet) (g : Game) :
    deactivatedCount g.asteroids (processBullet fo b g).2.asteroids ≤ 1 ∧
      (∀ i a, b.active = true → scanHit b g.asteroids = some (i, a) →
        (processBullet fo b g).1.active = false ∧
          (processBullet fo b g).2.asteroids.take g.asteroids.length =
            g.asteroids.set i { a with active := false } ∧
          a.active = true) := by
  cases hb : b.active
  · refine ⟨?_, ?_⟩
    · simp only [processBullet, hb]
      simp [deactivatedCount_self]
    · intro i a hba
      exact absurd hba (by simp [hb])
  · rcases hs : scanHit b g.asteroids with - | ⟨i, a⟩
    · refine ⟨?_, ?_⟩
      · simp only [processBullet, hb, hs]
        simp [deactivatedCount_self]
      · rintro j a1 - hs1
        exact Option.noConfusion hs1
    · obtain ⟨hg, hact, -⟩ := scanHit_sound b g.asteroids i a hs
      have hset : g.asteroids.length = (g.asteroids.set i { a with active := false }).length :=
        (List.length_set ..).symm

      have hred : (processBullet fo b g).2.asteroids =
          g.asteroids.set i { a with active := false } ++ (splitFragments a g.rng).1 := by
        simp [processBullet, hb, hs]
      refine ⟨?_, ?_⟩
      · rw [hred, deactivatedCount_append _ _ _ hset]
        exact deactivatedCount_set g.asteroids i a hg
      · rintro j a1 - hs1
        simp only [Option.some.injEq, Prod.mk.injEq] at hs1
        obtain ⟨hj, ha1⟩ := hs1
        subst hj
        subst ha1
        refine ⟨by simp [processBullet, hb, hs], ?_, hact⟩
        rw [hred, hset, List.take_left]

/-- C7 witness: the theorem applied to the field-center bullet and hazard;
the bullet dies on its first and only kill. -/
theorem c7_one_kill_per_bullet_witness :
    deactivatedCount waveCheckGame.asteroids
        (processBullet foZero centerBullet waveCheckGame).2.asteroids ≤ 1 ∧
      (processBullet foZero centerBullet waveCheckGame).1.active = false := by
  obtain ⟨h1, h2⟩ := c7_one_kill_per_bullet foZero centerBullet waveCheckGame
  have h3 := h2 0 centerAsteroid rfl
    (by norm_num [scanHit, bulletHits, asteroidRadius, centerBullet, centerAsteroid,
      waveCheckGame, baseGame])
  exact ⟨h1, h3.1⟩

/-- C3: destroying a non-Small hazard spawns exactly two children one size
class smaller (Large to Medium, Medium to Small) at the parent's position,
with the parent's velocity plus an independent jitter in [-2, 2] on each
axis, the parent record going dead; destroying a Small hazard spawns
nothing. -/
theorem c3_split (fo : FloatFns) (b : Bullet) (g : Game) (i : Nat) (a : Asteroid)
    (hb : b.active = true) (hs : scanHit b g.asteroids = some (i, a)) :
    (a.size ≠ SMALL →
        ∃ j1 j2 j3 j4 : Int, |j1| ≤ 2 ∧ |j2| ≤ 2 ∧ |j3| ≤ 2 ∧ |j4| ≤ 2 ∧
          (processBullet fo b g).2.asteroids =
            g.asteroids.set i { a with active := false } ++
              [{ x := a.x, y := a.y, velocityX := a.velocityX + (j1 : ℚ),
                 velocityY := a.velocityY + (j2 : ℚ), size := childSize a.size,
                 rotation := 0, active := true },
               { x := a.x, y := a.y, velocityX := a.velocityX + (j3 : ℚ),
                 velocityY := a.velocityY + (j4 : ℚ), size := childSize a.size,
                 rotation := 0, active := true }]) ∧
      (a.size = SMALL →
        (processBullet fo b g).2.asteroids = g.asteroids.set i { a with active := false }) ∧
      childSize LARGE = MEDIUM ∧ childSize MEDIUM = SMALL := by
  have hred : (processBullet fo b g).2.asteroids =
      g.asteroids.set i { a with active := false } ++ (splitFragments a g.rng).1 := by
    simp [processBullet, hb, hs]
  refine ⟨?_, ?_, rfl, rfl⟩
  · intro hsmall
    obtain ⟨hb1, hb2⟩ := getRandomValue_mem (-2) 2 g.rng (by omega)
    obtain ⟨hc1, hc2⟩ := getRandomValue_mem (-2) 2 (getRandomValue (-2) 2 g.rng).2 (by omega)
    obtain ⟨hd1, hd2⟩ := getRandomValue_mem (-2) 2
      (getRandomValue (-2) 2 (getRandomValue (-2) 2 g.rng).2).2 (by omega)
    obtain ⟨he1, he2⟩ := getRandomValue_mem (-2) 2
      (getRandomValue (-2) 2 (getRandomValue (-2) 2 (getRandomValue (-2) 2 g.rng).2).2).2
      (by omega)
    refine ⟨(getRandomValue (-2) 2 g.rng).1,
      (getRandomValue (-2) 2 (getRandomValue (-2) 2 g.rng).2).1,
      (getRandomValue (-2) 2 (getRandomValue (-2) 2 (getRandomValue (-2) 2 g.rng).2).2).1,
      (getRandomValue (-2) 2
        (getRandomValue (-2) 2 (getRandomValue (-2) 2 (getRandomValue (-2) 2 g.rng).2).2).2).1,
      abs_le.mpr ⟨hb1, hb2⟩, abs_le.mpr ⟨hc1, hc2⟩, abs_le.mpr ⟨hd1, hd2⟩,
      abs_le.mpr ⟨he1, he2⟩, ?_⟩
    rw [hred]
    simp [splitFragments, hsmall]
  · intro hsmall
    rw [hred]
    simp [splitFragments, hsmall]

/-- C3 witness: the center bullet destroys the Large center hazard; the
population afterwards holds the dead parent plus exactly two live Medium
children. -/
theorem c3_split_witness :
    (processBullet foZero centerBullet waveCheckGame).2.asteroids.length = 3 ∧
      ((processBullet foZero centerBullet waveCheckGame).2.asteroids.drop 1).all
          (fun c => decide (c.size = MEDIUM) && c.active) = true ∧
      ((processBullet foZero centerBullet waveCheckGame).2.asteroids.head?.map Asteroid.active =
        some false) := by
  obtain ⟨hns, -, -, -⟩ := c3_split foZero centerBullet waveCheckGame 0 centerAsteroid rfl
    (by norm_num [scanHit, bulletHits, asteroidRadius, centerBullet, centerAsteroid,
      waveCheckGame, baseGame])
  obtain ⟨j1, j2, j3, j4, -, -, -, -, heq⟩ := hns (by decide)
  rw [heq]
  refine ⟨?_, ?_, ?_⟩ <;>
    simp [waveCheckGame, baseGame, centerAsteroid, childSize]

/-- One bullet pass leaves lives, the high scores, the state and the ship
untouched. -/
theorem processBullet_preserves (fo : FloatFns) (b : Bullet) (g : Game) :
    (processBullet fo b g).2.lives = g.lives ∧
      (processBullet fo b g).2.highScore = g.highScore ∧
      (processBullet fo b g).2.persistedHighScore = g.persistedHighScore ∧
      (processBullet fo b g).2.state = g.state ∧
      (processBullet fo b g).2.ship = g.ship := by
  by_cases hb : b.active = false
  · simp [processBullet, hb]
  · rcases hs : scanHit b g.asteroids with - | ⟨i, a⟩ <;> simp [processBullet, hb, hs]

/-- The whole bullet-asteroid collision pass leaves lives, the high
scores, the state and the ship untouched. -/
theorem processBullets_preserves (fo : FloatFns) :
    ∀ (bs : List Bullet) (g : Game),
      (processBullets fo bs g).2.lives = g.lives ∧
        (processBullets fo bs g).2.highScore = g.highScore ∧
        (processBullets fo bs g).2.persistedHighScore = g.persistedHighScore ∧
        (processBullets fo bs g).2.state = g.state ∧
        (processBullets fo bs g).2.ship = g.ship := by
  intro bs
  induction bs with
  | nil => intro g; exact ⟨rfl, rfl, rfl, rfl, rfl⟩
  | cons b rest ih =>
    intro g
    obtain ⟨h1, h2, h3, h4, h5⟩ := processBullet_preserves fo b g
    obtain ⟨i1, i2, i3, i4, i5⟩ := ih (processBullet fo b g).2
    exact ⟨i1.trans h1, i2.trans h2, i3.trans h3, i4.trans h4, i5.trans h5⟩

/-- Physics plus the bullet pass leave lives and the high scores
untouched. -/
theorem afterBulletPass_preserves (fo : FloatFns) (inp : Input) (g : Game) :
    (afterBulletPass fo inp g).lives = g.lives ∧
      (afterBulletPass fo inp g).highScore = g.highScore ∧
      (afterBulletPass fo inp g).persistedHighScore = g.persistedHighScore := by
  obtain ⟨h1, h2, h3, -, -⟩ := processBullets_preserves fo
    (updatePlayingPhysics fo inp g).bullets (updatePlayingPhysics fo inp g)
  exact ⟨h1, h2, h3⟩

/-- The tick equation for a PLAYING state when neither ESC nor P is
pressed: physics, bullet collisions, ship collisions (stopping there when
the ship died), wave check, cleanup, then the particle update. -/
theorem tick_playing (fo : FloatFns) (inp : Input) (dt : ℚ) (g : Game)
    (hstate : g.state = PLAYING) (hesc : inp.escapePressed = false)
    (hp : inp.pPressed = false) :
    tick fo inp dt g = some
      (let hit := handleShipAsteroidCollisions fo (afterBulletPass fo inp g)
       let g3 := if hit.1 then hit.2 else cleanupInactiveObjects (checkWaveCompletion hit.2)
       { g3 with particles := cleanupParticleList (updateParticleList dt g3.particles) }) := by
  simp [tick, playingUpdate, afterBulletPass, hstate, hesc, hp]

/-- C2: in a PLAYING tick whose ship overlaps some live hazard after the
physics and bullet stages, lives drop by exactly one; with lives left the
session enters the spawn guard with the fixed cooldown, and at zero lives
it enters GAME_OVER in the same tick, updating the stored and persisted
high score exactly when the current score exceeds the stored value; the
hazard population is untouched by the ship collision, so the colliding
hazard stays live. -/
theorem c2_ship_collision (fo : FloatFns) (inp : Input) (dt : ℚ) (g : Game)
    (hstate : g.state = PLAYING) (hesc : inp.escapePressed = false) (hp : inp.pPressed = false)
    (hhit : (afterBulletPass fo inp g).asteroids.any
      (fun a => a.active && shipHits (afterBulletPass fo inp g).ship a) = true) :
    ∃ g', tick fo inp dt g = some g' ∧
      g'.lives = g.lives - 1 ∧
      g'.asteroids = (afterBulletPass fo inp g).asteroids ∧
      (0 < g.lives - 1 →
        g'.state = WAITING_TO_SPAWN ∧ g'.inputCooldownTimer = BASE_COOLDOWN_DURATION) ∧
      (g.lives - 1 = 0 →
        g'.state = GAME_OVER ∧
          g'.highScore =
            (if (afterBulletPass fo inp g).score > g.highScore
             then (afterBulletPass fo inp g).score else g.highScore) ∧
          g'.persistedHighScore =
            (if (afterBulletPass fo inp g).score > g.highScore
             then (afterBulletPass fo inp g).score else g.persistedHighScore)) := by
  obtain ⟨hl, hhs, hphs⟩ := afterBulletPass_preserves fo inp g
  have hfst : (handleShipAsteroidCollisions fo (afterBulletPass fo inp g)).1 = true := by
    simp [handleShipAsteroidCollisions, hhit, apply_ite (Prod.fst : Bool × Game → Bool)]
  rw [tick_playing fo inp dt g hstate hesc hp]
  by_cases hlpos : (0 : Int) < g.lives - 1
  · have hc : 1 < (afterBulletPass fo inp g).lives := by rw [hl]; omega
    have hXeq : (handleShipAsteroidCollisions fo (afterBulletPass fo inp g)).2 =
        { afterBulletPass fo inp g with
          particles := (afterBulletPass fo inp g).particles ++
            (createShipExplosionParticles fo (afterBulletPass fo inp g).ship.x
              (afterBulletPass fo inp g).ship.y (afterBulletPass fo inp g).crng).1
          crng := (createShipExplosionParticles fo (afterBulletPass fo inp g).ship.x
            (afterBulletPass fo inp g).ship.y (afterBulletPass fo inp g).crng).2
          lives := (afterBulletPass fo inp g).lives - 1
          state := WAITING_TO_SPAWN
          inputCooldownTimer := BASE_COOLDOWN_DURATION } := by
      simp [handleShipAsteroidCollisions, hhit, hc, apply_ite (Prod.snd : Bool × Game → Game)]
    exact ⟨_, rfl, by simp [hfst, hXeq, hl], by simp [hfst, hXeq],
      fun _ => ⟨by simp [hfst, hXeq], by simp [hfst, hXeq]⟩,
      fun h0 => absurd h0 (by omega)⟩
  · have hc : ¬1 < (afterBulletPass fo inp g).lives := by rw [hl]; omega
    by_cases hsc : (afterBulletPass fo inp g).score > (afterBulletPass fo inp g).highScore
    · have hXeq : (handleShipAsteroidCollisions fo (afterBulletPass fo inp g)).2 =
          { afterBulletPass fo inp g with
            particles := (afterBulletPass fo inp g).particles ++
              (createShipExplosionParticles fo (afterBulletPass fo inp g).ship.x
                (afterBulletPass fo inp g).ship.y (afterBulletPass fo inp g).crng).1
            crng := (createShipExplosionParticles fo (afterBulletPass fo inp g).ship.x
              (afterBulletPass fo inp g).ship.y (afterBulletPass fo inp g).crng).2
            lives := (afterBulletPass fo inp g).lives - 1
            state := GAME_OVER
            highScore := (afterBulletPass fo inp g).score
            persistedHighScore := (afterBulletPass fo inp g).score } := by
        simp [handleShipAsteroidCollisions, hhit, hc, checkAndUpdateHighScore, hsc,
          apply_ite (Prod.snd : Bool × Game → Game)]
      have hsc' : (afterBulletPass fo inp g).score > g.highScore := by rwa [hhs] at hsc
      exact ⟨_, rfl, by simp [hfst, hXeq, hl], by simp [hfst, hXeq],
        fun h0 => absurd h0 (by omega),
        fun _ => ⟨by simp [hfst, hXeq], by simp [hfst, hXeq, hsc'],
          by simp [hfst, hXeq, hsc']⟩⟩
    · have hXeq : (handleShipAsteroidCollisions fo (afterBulletPass fo inp g)).2 =
          { afterBulletPass fo inp g with
            particles := (afterBulletPass fo inp g).particles ++
              (createShipExplosionParticles fo (afterBulletPass fo inp g).ship.x
                (afterBulletPass fo inp g).ship.y (afterBulletPass fo inp g).crng).1
            crng := (createShipExplosionParticles fo (afterBulletPass fo inp g).ship.x
              (afterBulletPass fo inp g).ship.y (afterBulletPass fo inp g).crng).2
            lives := (afterBulletPass fo inp g).lives - 1
            state := GAME_OVER } := by
        simp [handleShipAsteroidCollisions, hhit, hc, checkAndUpdateHighScore, hsc,
          apply_ite (Prod.snd : Bool × Game → Game)]
      have hsc' : ¬(afterBulletPass fo inp g).score > g.highScore := by rwa [hhs] at hsc
      exact ⟨_, rfl, by simp [hfst, hXeq, hl], by simp [hfst, hXeq],
        fun h0 => absurd h0 (by omega),
        fun _ => ⟨by simp [hfst, hXeq], by simp [hfst, hXeq, hsc', hhs],
          by simp [hfst, hXeq, hsc', hphs]⟩⟩

/-- C2 witness: a centered ship at one life meets the centered Large
hazard: lives hit zero, the session terminates, and score 30 replaces the
stored high score 10 in memory and in the persisted store. -/
theorem c2_ship_collision_witness :
    (tick foZero Input.idle (1 / 60) collideGame).map Game.lives = some 0 ∧
      (tick foZero Input.idle (1 / 60) collideGame).map Game.state = some GAME_OVER ∧
      (tick foZero Input.idle (1 / 60) collideGame).map Game.highScore = some 30 ∧
      (tick foZero Input.idle (1 / 60) collideGame).map Game.persistedHighScore = some 30 := by
  obtain ⟨g', htick, hlv, hast, hpos, hgo⟩ := c2_ship_collision foZero Input.idle (1 / 60)
    collideGame rfl rfl rfl
    (by norm_num [afterBulletPass, handleBulletAsteroidCollisions, processBullets,
      updatePlayingPhysics, handleShipInput, updateShipPhysics, updateBulletList,
      updateAsteroidList, updateAsteroid, wrapCoord, shipHits, asteroidRadius,
      collideGame, baseGame, centerAsteroid, centeredShip, Input.idle, foZero,
      gameWidth, gameHeight])
  obtain ⟨hst, hhs2, hphs2⟩ := hgo (by decide)
  have hms : (afterBulletPass foZero Input.idle collideGame).score = 30 := rfl
  rw [htick]
  refine ⟨?_, ?_, ?_, ?_⟩
  · rw [Option.map_some', hlv]
    norm_num [collideGame, baseGame]
  · rw [Option.map_some', hst]
  · rw [Option.map_some', hhs2, hms]
    norm_num [collideGame, baseGame]
  · rw [Option.map_some', hphs2, hms]
    norm_num [collideGame, baseGame]

/-- C4, counterexample: in a PLAYING tick a bullet kills the center
hazard; the population CheckWaveCompletion then inspects still contains
the dead parent record, because main.cpp runs CleanupInactiveObjects
after the wave check, not before it. -/
theorem c4_counterexample :
    waveCheckGame.state = PLAYING ∧
      (asteroidsAtWaveCheck foZero Input.idle waveCheckGame).any (fun a => !a.active) = true ∧
      (handleShipAsteroidCollisions foZero (afterBulletPass foZero Input.idle waveCheckGame)).1 =
        false := by
  refine ⟨rfl, ?_, ?_⟩ <;>
    norm_num [asteroidsAtWaveCheck, afterBulletPass, handleBulletAsteroidCollisions,
      processBullets, processBullet, scanHit, bulletHits, splitFragments, getRandomValue,
      childSize, asteroidRadius, updatePlayingPhysics, handleShipInput, updateShipPhysics,
      updateBulletList, updateBullet, updateAsteroidList, updateAsteroid, wrapCoord,
      handleShipAsteroidCollisions, shipHits, waveCheckGame, baseGame, centerBullet,
      centerAsteroid, rngZero, foZero, Input.idle, gameWidth, gameHeight, centeredShip,
      show (LARGE = SMALL) = False from by simp, show (MEDIUM = LARGE) = False from by simp,
      show (MEDIUM = SMALL) = False from by simp]

/-- A compacted population satisfies its own liveness filter. -/
theorem filter_all_self {α : Type} (p : α → Bool) (l : List α) : (l.filter p).all p = true := by
  rw [List.all_eq_true]
  exact fun a ha => (List.mem_filter.mp ha).2

/-- Dead records do not affect the CheckWaveCompletion verdict. -/
theorem allAsteroidsDestroyed_filter (as : List Asteroid) :
    allAsteroidsDestroyed (as.filter fun a => a.active) = allAsteroidsDestroyed as := by
  induction as with
  | nil => rfl
  | cons a t ih =>
    cases ha : a.active
    · simp [allAsteroidsDestroyed, List.filter_cons, ha, ih]
    · simp [allAsteroidsDestroyed, List.filter_cons, ha]

/-- C4 (amended): in a PLAYING tick in which the ship survives, the stage
order is physics, bullet collisions, ship collisions, wave check, and only
then compaction — cleanup is the last stage, after the wave-completion
check, not before it.  The populations the tick hands to the next frame
contain live records only, and the wave-completion verdict is unaffected
by dead records since it inspects liveness flags. -/
theorem c4_cleanup_last (fo : FloatFns) (inp : Input) (dt : ℚ) (g : Game)
    (hstate : g.state = PLAYING) (hesc : inp.escapePressed = false) (hp : inp.pPressed = false)
    (hsurvive :
      (handleShipAsteroidCollisions fo (afterBulletPass fo inp g)).1 = false) :
    ∃ g', tick fo inp dt g = some g' ∧
      g' = { cleanupInactiveObjects (checkWaveCompletion
          (handleShipAsteroidCollisions fo (afterBulletPass fo inp g)).2) with
          particles := cleanupParticleList (updateParticleList dt
            (cleanupInactiveObjects (checkWaveCompletion
              (handleShipAsteroidCollisions fo (afterBulletPass fo inp g)).2)).particles) } ∧
      g'.bullets.all (fun b => b.active) = true ∧
      g'.asteroids.all (fun a => a.active) = true ∧
      (∀ as : List Asteroid,
        allAsteroidsDestroyed (as.filter fun a => a.active) = allAsteroidsDestroyed as) := by
  rw [tick_playing fo inp dt g hstate hesc hp]
  refine ⟨_, rfl, by simp [hsurvive], ?_, ?_, allAsteroidsDestroyed_filter⟩
  · simp [hsurvive, cleanupInactiveObjects, filter_all_self]
  · simp [hsurvive, cleanupInactiveObjects, filter_all_self]

/-- C4 witness: the amended theorem applied to a quiet PLAYING session. -/
theorem c4_cleanup_last_witness :
    (tick foZero Input.idle (1 / 60) quietPlayingGame).map
        (fun g => g.asteroids.all fun a => a.active) = some true ∧
      (tick foZero Input.idle (1 / 60) quietPlayingGame).map
        (fun g => g.bullets.all fun b => b.active) = some true := by
  obtain ⟨g', htick, -, hb, ha, -⟩ := c4_cleanup_last foZero Input.idle (1 / 60)
    quietPlayingGame rfl rfl rfl
    (by norm_num [handleShipAsteroidCollisions, afterBulletPass,
      handleBulletAsteroidCollisions, processBullets, updatePlayingPhysics, handleShipInput,
      updateShipPhysics, updateBulletList, updateAsteroidList, quietPlayingGame, baseGame,
      Input.idle, shipHits])
  rw [htick]
  exact ⟨by simp [ha], by simp [hb]⟩

end Asteroids
